import Mathlib

/-!
# Verification of the NadLabs launch-payload assembly and relay pipeline

Shallow embedding of the launch pipeline of the NadLabs repository:
the Nad.fun service layer (`uploadImage`, `uploadMetadata`, `mineSalt`,
`getFeeConfig`, `getInitialBuyAmountOut`, `parseCurveCreateFromReceipt`),
the payload packer (`packLaunchTx`), the transaction submitter
(`signAndLaunch`), the builder-state persistence (persist / restore
effects, `handleResetCache`), and the forwarding relay
(`getCorsOrigin`, `send`, request handler).

External effects (HTTP fetch results, wallet interactions, chain reads)
are passed in as explicit oracle values; everything the repository's own
code computes is translated directly from the source.
-/

namespace NadLabs

/-! ## JavaScript-style string and number helpers

String primitives are implemented by structural recursion on the character
list (rather than through the byte-position-based core functions), so that
every definition evaluates inside the kernel. -/

/-- `p` is a prefix of `s`. -/
def strStarts (s p : String) : Bool := p.data.isPrefixOf s.data

/-- `p` is a suffix of `s`. -/
def strEnds (s p : String) : Bool := p.data.isSuffixOf s.data

/-- Drop the first `n` characters. -/
def strDrop (s : String) (n : Nat) : String := ⟨s.data.drop n⟩

/-- Drop the last `n` characters. -/
def strDropRight (s : String) (n : Nat) : String := ⟨s.data.take (s.data.length - n)⟩

/-- Keep the first `n` characters. -/
def strTake (s : String) (n : Nat) : String := ⟨s.data.take n⟩

/-- JS `String.prototype.trim`: strip leading and trailing whitespace. -/
def jsTrim (s : String) : String :=
  ⟨((s.data.dropWhile Char.isWhitespace).reverse.dropWhile Char.isWhitespace).reverse⟩

/-- Lower-case every character. -/
def strToLower (s : String) : String := ⟨s.data.map Char.toLower⟩

/-- Splitting on `','` (JS `String.prototype.split(',')`). -/
def splitCommaAux : List Char → List Char → List String
  | [], acc => [⟨acc.reverse⟩]
  | c :: rest, acc =>
    if c = ',' then (⟨acc.reverse⟩ : String) :: splitCommaAux rest []
    else splitCommaAux rest (c :: acc)

def splitOnComma (s : String) : List String := splitCommaAux s.data []

/-- JavaScript `x || d` on strings: the empty string is falsy. -/
def jsOr (s d : String) : String := if s = "" then d else s

/-- JavaScript `x || d` where `x` may be `undefined` (`none`). -/
def jsOrO (o : Option String) (d : String) : String :=
  match o with
  | some s => jsOr s d
  | none => d

/-- Decimal value of a list of digit characters (most significant first). -/
def digitsVal (l : List Char) : Nat :=
  l.foldl (fun a c => a * 10 + (c.toNat - '0'.toNat)) 0

/-- Model of viem's `parseEther` (= `parseUnits` with 18 decimals): accepts an
optional sign, an optional integer digit run, an optional dot and fractional
digit run (the regex `(-?)([0-9]*)\.?([0-9]*)`), scales by `10^18` and rounds
half-up past 18 fractional digits; returns `none` where viem throws
`InvalidDecimalNumberError`. -/
def parseEther? (s : String) : Option Int :=
  let (neg, body) := if strStarts s "-" then (true, (strDrop s 1).data) else (false, s.data)
  let intPart := body.takeWhile Char.isDigit
  let rest := body.dropWhile Char.isDigit
  let mk : List Char → Option Int := fun fracDigits =>
    let len := fracDigits.length
    let fracVal := (digitsVal fracDigits * 2 * 10 ^ 18 + 10 ^ len) / (2 * 10 ^ len)
    let v : Int := Int.ofNat (digitsVal intPart * 10 ^ 18 + fracVal)
    some (if neg then -v else v)
  match rest with
  | [] => mk []
  | c :: fracDigits =>
    if c = '.' ∧ fracDigits.all Char.isDigit then mk fracDigits else none

/-- Left-pad a string with zeros up to `n` characters. -/
def padZeros (s : String) (n : Nat) : String :=
  String.mk (List.replicate (n - s.length) '0') ++ s

/-- Drop trailing `'0'` characters. -/
def dropTrailingZeros (s : String) : String :=
  String.mk (s.data.reverse.dropWhile (· = '0')).reverse

/-- Model of viem's `formatEther`: decimal rendering of an 18-decimals bigint,
with the fractional part stripped of trailing zeros and omitted when zero. -/
def formatEther (v : Int) : String :=
  let n := v.natAbs
  let ip := n / 10 ^ 18
  let frac := dropTrailingZeros (padZeros (toString (n % 10 ^ 18)) 18)
  (if v < 0 then "-" else "") ++ toString ip ++ (if frac = "" then "" else "." ++ frac)

/-- Model of JavaScript `BigInt(string)`: optional sign and decimal digits
after trimming; the empty string converts to `0`; returns `none` where JS
throws a `SyntaxError`. (Hex/octal/binary prefixes are not used by this
repository and are not modelled.) -/
def bigIntOfString? (s : String) : Option Int :=
  let t := jsTrim s
  if t = "" then some 0
  else
    let (neg, ds) := if strStarts t "-" then (true, strDrop t 1) else (false, t)
    if ds ≠ "" ∧ ds.data.all Char.isDigit then
      some ((if neg then -1 else 1) * Int.ofNat (digitsVal ds.data))
    else none

/-! ## Nad.fun service constants (source: `services/nadfun.ts` section) -/

inductive NadfunNetwork
  | testnet
  | mainnet
deriving DecidableEq, Repr

/-- `export const NADFUN_NETWORK: NadfunNetwork = 'mainnet';` -/
def NADFUN_NETWORK : NadfunNetwork := .mainnet

def NADFUN_API_BASE_URL : NadfunNetwork → String
  | .testnet => "https://dev-api.nad.fun"
  | .mainnet => "https://api.nadapp.net"

structure ContractSet where
  BONDING_CURVE_ROUTER : String
  LENS : String
  CURVE : String
deriving DecidableEq, Repr

def NADFUN_CONTRACTS : NadfunNetwork → ContractSet
  | .testnet =>
    { BONDING_CURVE_ROUTER := "0x865054F0F6A288adaAc30261731361EA7E908003"
      LENS := "0xB056d79CA5257589692699a46623F901a3BB76f1"
      CURVE := "0x1228b0dc9481C11D3071E7A924B794CfB038994e" }
  | .mainnet =>
    { BONDING_CURVE_ROUTER := "0x6F6B8F1a20703309951a5127c45B49b1CD981A22"
      LENS := "0x7e78A8DE94f21804F7a17F4E8BF9EC2c872187ea"
      CURVE := "0xA7283d07812a02AFB7C09B60f8896bCEA3F90aCE" }

/-- `monadTestnet.id` from `wagmi/chains` (Monad Testnet chain id). -/
def monadTestnetId : Nat := 10143

/-! ## Asset uploader and salt miner (source: `uploadImage`, `uploadMetadata`,
`mineSalt`, `getFeeConfig`, `getInitialBuyAmountOut`)

The HTTP transport is abstracted: each function takes the awaited `fetch`
response. A response carries the `ok` flag, the `statusText`, and the result
of `res.json()` — `none` when the body is not parseable JSON. Parsed bodies
are modelled as one record per endpoint holding every field either branch of
the source reads (a field the upstream did not send reads as its default,
matching JS `undefined` coercion on the fields the source actually uses). -/

structure UploadImageResult where
  imageUri : String
  isNsfw : Bool
deriving DecidableEq, Repr

structure MetadataEcho where
  name : String
  symbol : String
  description : String
  imageUri : String
  website : Option String
  twitter : Option String
  telegram : Option String
  isNsfw : Bool
deriving DecidableEq, Repr

structure UploadMetadataResult where
  metadataUri : String
  metadata : MetadataEcho
deriving DecidableEq, Repr

structure MineSaltParams where
  creator : String
  name : String
  symbol : String
  metadataUri : String
deriving DecidableEq, Repr

structure MineSaltResult where
  salt : String
  address : String
deriving DecidableEq, Repr

structure FeeConfig where
  deployFeeAmount : Int
  graduateFeeAmount : Int
  protocolFee : Int
deriving DecidableEq, Repr

/-- Parsed JSON body of the image-upload endpoint (both the error shape
`{error}` and the success shape `{image_uri, is_nsfw}`). -/
structure ImageJson where
  error : Option String
  image_uri : String
  is_nsfw : Bool
deriving DecidableEq, Repr

structure MetaInnerJson where
  name : String
  symbol : String
  description : String
  image_uri : String
  website : Option String
  twitter : Option String
  telegram : Option String
  is_nsfw : Bool
deriving DecidableEq, Repr

/-- Parsed JSON body of the metadata-upload endpoint. -/
structure MetaJson where
  error : Option String
  metadata_uri : String
  metadata : MetaInnerJson
deriving DecidableEq, Repr

/-- An awaited `fetch` response with a JSON body of shape `β`
(`json = none`: the body did not parse). -/
structure HttpResp (β : Type) where
  ok : Bool
  statusText : String
  json : Option β
deriving DecidableEq, Repr

/-- `payload.error || res.statusText` where `payload.error` may be absent. -/
def jsOrStatus (e : Option String) (statusText : String) : String :=
  match e with
  | some s => jsOr s statusText
  | none => statusText

/-- The `.catch(() => ({ error: 'Unknown error' }))` fallback: the error field
of the parsed body, or `'Unknown error'` when the body did not parse. -/
def errorFieldOfImage (json : Option ImageJson) : Option String :=
  match json with
  | none => some "Unknown error"
  | some j => j.error

def errorFieldOfMeta (json : Option MetaJson) : Option String :=
  match json with
  | none => some "Unknown error"
  | some j => j.error

/-- JS `SyntaxError` raised by `res.json()` on the success path (exact engine
message is irrelevant to every property verified here). -/
def jsonParseFailureMsg : String := "Unexpected end of JSON input"

/-- Source `uploadImage`, response-handling core: on a non-ok status, throw
with the parsed `{error}` or the status text; on ok, return the body's
`image_uri` / `is_nsfw`. -/
def uploadImage (res : HttpResp ImageJson) : Except String UploadImageResult :=
  if res.ok = false then
    Except.error ("Nad.fun image upload failed: " ++
      jsOrStatus (errorFieldOfImage res.json) res.statusText)
  else
    match res.json with
    | some j => Except.ok { imageUri := j.image_uri, isNsfw := j.is_nsfw }
    | none => Except.error jsonParseFailureMsg

/-- Source `uploadMetadata`, response-handling core (same error contract). -/
def uploadMetadata (res : HttpResp MetaJson) : Except String UploadMetadataResult :=
  if res.ok = false then
    Except.error ("Nad.fun metadata upload failed: " ++
      jsOrStatus (errorFieldOfMeta res.json) res.statusText)
  else
    match res.json with
    | some j =>
      Except.ok
        { metadataUri := j.metadata_uri
          metadata :=
            { name := j.metadata.name, symbol := j.metadata.symbol
              description := j.metadata.description, imageUri := j.metadata.image_uri
              website := j.metadata.website, twitter := j.metadata.twitter
              telegram := j.metadata.telegram, isNsfw := j.metadata.is_nsfw } }
    | none => Except.error jsonParseFailureMsg

/-! ## Receipt event decoding (source: `parseCurveCreateFromReceipt`) -/

/-- A receipt log entry. `topics` is the raw topic list; viem's ABI decode of
the non-indexed `data` section is abstracted into the `dataDecodes` flag (the
three address arguments the source reads are indexed, i.e. recovered from
`topics[1..3]`). -/
structure RLog where
  topics : List String
  dataDecodes : Bool
deriving DecidableEq, Repr

structure Receipt where
  logs : List RLog
deriving DecidableEq, Repr

/-- The `CurveCreate` event selector (keccak-256 of the event signature in
`curveAbi`); kept as a fixed constant — only equality with `topics[0]`
matters to the verified control flow. -/
def curveCreateTopic : String :=
  "keccak256:CurveCreate(address,address,address,string,string,string,uint256,uint256,uint256)"

structure CurveCreateDecoded where
  eventName : String
  creator : String
  token : String
  pool : String
deriving DecidableEq, Repr

/-- viem `decodeEventLog` specialized to `curveAbi` (whose only event is
`CurveCreate` with three indexed addresses): succeeds exactly when the log's
first topic is the `CurveCreate` selector, the indexed topics are present and
the data section decodes; `none` models the throw the source catches. -/
def decodeEventLogCurveAbi (log : RLog) : Option CurveCreateDecoded :=
  match log.topics with
  | [t0, creator, token, pool] =>
    if t0 = curveCreateTopic ∧ log.dataDecodes then
      some { eventName := "CurveCreate", creator := creator, token := token, pool := pool }
    else none
  | _ => none

structure CreatedInfo where
  token : String
  pool : String
deriving DecidableEq, Repr

/-- Loop body of `parseCurveCreateFromReceipt`: first decodable `CurveCreate`
log wins; decode failures are skipped. -/
def parseCurveCreateLogs : List RLog → Option CreatedInfo
  | [] => none
  | log :: rest =>
    match decodeEventLogCurveAbi log with
    | some ev =>
      if ev.eventName = "CurveCreate" then some { token := ev.token, pool := ev.pool }
      else parseCurveCreateLogs rest
    | none => parseCurveCreateLogs rest

def parseCurveCreateFromReceipt (receipt : Receipt) : Option CreatedInfo :=
  parseCurveCreateLogs receipt.logs

/-! ## Forwarding relay (source: relay server file) -/

/-- `RELAY_ALLOWED_ORIGINS` parsing: split on commas, trim, drop empties. -/
def parseAllowedOrigins (s : String) : List String :=
  ((splitOnComma s).map jsTrim).filter (fun x => x ≠ "")

/-- `origin.replace(/^https?:\/\//, '')`. -/
def stripScheme (s : String) : String :=
  if strStarts s "https://" then strDrop s 8
  else if strStarts s "http://" then strDrop s 7
  else s

/-- `.replace(/\/$/, '')`. -/
def stripTrailingSlash (s : String) : String :=
  if strEnds s "/" then strDropRight s 1 else s

/-- Source `getCorsOrigin`: wildcard for a missing origin or an empty
allow-list; with an allow-list, echo the origin on an exact or host-only
match and return the empty string (no header) otherwise. -/
def getCorsOrigin (allowedOrigins : List String) (origin : String) : String :=
  if origin = "" then "*"
  else if allowedOrigins = [] then "*"
  else
    let host := stripTrailingSlash (stripScheme origin)
    if allowedOrigins.contains origin ∨ allowedOrigins.contains host then origin
    else ""

structure RelayReq where
  url : String
  method : String
  headers : List (String × String)
  body : String
deriving DecidableEq, Repr

structure RelayResp where
  status : Nat
  headers : List (String × String)
  body : String
deriving DecidableEq, Repr

structure ForwardReq where
  url : String
  method : String
  headers : List (String × String)
  body : Option String
deriving DecidableEq, Repr

structure UpstreamResp where
  status : Nat
  headers : List (String × String)
  body : String
deriving DecidableEq, Repr

/-- Header lookup (Node lowercases incoming request header names). -/
def lookupHeader (hs : List (String × String)) (k : String) : Option String :=
  (hs.find? (fun p => p.1 = k)).map (fun p => p.2)

/-- JS object spread `{...base, ...extra}` on header maps: keys of `extra`
override keys of `base`. -/
def mergeHeaders (base extra : List (String × String)) : List (String × String) :=
  base.filter (fun p => ¬ extra.any (fun q => q.1 = p.1)) ++ extra

/-- Source `send`: attaches the CORS base headers, the computed
`Access-Control-Allow-Origin` (when non-empty) and the extra headers. -/
def send (allowedOrigins : List String) (reqHeaders : List (String × String))
    (status : Nat) (body : String) (extra : List (String × String)) : RelayResp :=
  let origin := (lookupHeader reqHeaders "origin").getD ""
  let corsOrigin := getCorsOrigin allowedOrigins origin
  let base :=
    [("Access-Control-Allow-Headers", "Content-Type, Nad-Web-Access"),
     ("Access-Control-Allow-Methods", "GET,POST,PUT,DELETE,OPTIONS")] ++
    (if corsOrigin = "" then []
     else [("Access-Control-Allow-Origin", corsOrigin), ("Vary", "Origin")])
  { status := status, headers := mergeHeaders base extra, body := body }

/-- Response headers relayed from the upstream, with encoding and CORS
headers stripped. -/
def relayResHeaders (hs : List (String × String)) : List (String × String) :=
  hs.filter (fun p =>
    strToLower p.1 ≠ "content-encoding" ∧ strToLower p.1 ≠ "content-length" ∧
    strToLower p.1 ≠ "transfer-encoding" ∧ strToLower p.1 ≠ "access-control-allow-origin" ∧
    strToLower p.1 ≠ "access-control-allow-headers" ∧ strToLower p.1 ≠ "access-control-allow-methods")

/-- `delete headers.host/origin/referer` before forwarding. -/
def stripHopHeaders (hs : List (String × String)) : List (String × String) :=
  hs.filter (fun p => p.1 ≠ "host" ∧ p.1 ≠ "origin" ∧ p.1 ≠ "referer")

/-- `JSON.stringify({ error: msg })`. -/
def jsonErrorBody (msg : String) : String :=
  "\x7b\"error\":\"" ++ msg ++ "\"\x7d"

/-- The relay request handler. Returns the response sent to the caller and
the upstream request performed, `none` when the upstream was not contacted.
The upstream `fetch` is the `upstream` oracle (`Except.error` models a throw
while contacting it). -/
def relayHandler (target : String) (allowedOrigins : List String)
    (upstream : ForwardReq → Except String UpstreamResp) (req : RelayReq) :
    RelayResp × Option ForwardReq :=
  if req.url = "" then (send allowedOrigins req.headers 404 "Not found" [], none)
  else if req.method = "OPTIONS" then (send allowedOrigins req.headers 200 "" [], none)
  else if ¬ strStarts req.url "/relay" then
    (send allowedOrigins req.headers 404 "Not found" [], none)
  else
    let upstreamPath := strDrop req.url 6
    let url := target ++ upstreamPath
    let body := if req.method = "GET" ∨ req.method = "HEAD" then none else some req.body
    let fwd : ForwardReq :=
      { url := url, method := req.method, headers := stripHopHeaders req.headers, body := body }
    match upstream fwd with
    | .ok u =>
      (send allowedOrigins req.headers u.status u.body (relayResHeaders u.headers), some fwd)
    | .error e =>
      (send allowedOrigins req.headers 500 (jsonErrorBody e)
        [("Content-Type", "application/json")], some fwd)

/-- The `Access-Control-Allow-Origin` header of a relay response. -/
def acaoOf (r : RelayResp) : Option String :=
  lookupHeader r.headers "Access-Control-Allow-Origin"

/-! ## Logo generation and logo decoding (source: `hashString`,
`buildLogoSet`, `dataUrlToBlob`) -/

/-- One step of `hash = (hash * 31 + value.charCodeAt(i)) | 0` (signed 32-bit
wrap-around). -/
def hashStep (h : Int) (c : Nat) : Int :=
  let m := (h * 31 + Int.ofNat c).emod 4294967296
  if 2147483648 ≤ m then m - 4294967296 else m

/-- Source `hashString`: 31-based rolling hash over the char codes with `|0`
truncation, then `Math.abs`. -/
def hashString (s : String) : Nat :=
  (s.data.foldl (fun h c => hashStep h c.toNat) 0).natAbs

/-- Rendered logo SVG for a seed. Modelled from the source `buildLogoSvg`:
the seed-to-image derivation is kept; the literal SVG template text is
abstracted into an opaque rendering since no verified property inspects the
image payload. -/
def buildLogoSvg (seed : Nat) : String := "svg-render-" ++ toString seed

/-- Source `buildLogoSet`: four data-URL logos with seeds
`hashString title + idx * 17` (the base64 encoding of the SVG text is
abstracted along with the template). -/
def buildLogoSet (ideaTitle : String) : List String :=
  (List.range 4).map (fun idx =>
    "data:image/svg+xml;base64," ++ buildLogoSvg (hashString ideaTitle + idx * 17))

/-- A binary blob: MIME type and byte count. -/
structure Blob where
  mime : String
  bytes : Nat
deriving DecidableEq, Repr

/-- Source `dataUrlToBlob`: accepts base64 data URLs for png/jpeg/jpg/svg and
utf8 data URLs for svg, `none` otherwise. The base64/percent decoding is
abstracted: the byte count is modelled as the payload length and `atob` is
treated as total (no verified property reads the byte count). -/
def dataUrlToBlob (dataUrl : String) : Option Blob :=
  let try64 : String → Option Blob := fun mime =>
    let prefx := "data:" ++ mime ++ ";base64,"
    if strStarts dataUrl prefx ∧ dataUrl.length > prefx.length then
      some { mime := mime, bytes := dataUrl.length - prefx.length }
    else none
  match try64 "image/png" with
  | some b => some b
  | none =>
  match try64 "image/jpeg" with
  | some b => some b
  | none =>
  match try64 "image/jpg" with
  | some b => some b
  | none =>
  match try64 "image/svg+xml" with
  | some b => some b
  | none =>
    let prefx := "data:image/svg+xml;utf8,"
    if strStarts dataUrl prefx ∧ dataUrl.length > prefx.length then
      some { mime := "image/svg+xml", bytes := dataUrl.length - prefx.length }
    else none

/-! ## Builder state data model (source: `BlueprintModal` component state) -/

/-- The user-editable token form. `initialBuyMon` is optional because
`handleResetCache` rebuilds the form without that property (JS leaves it
`undefined`); every other field is always present on the objects the
component constructs. -/
structure TokenForm where
  name : String
  symbol : String
  supply : String
  description : String
  twitter : String
  telegram : String
  website : String
  initialBuyMon : Option String
  customLogoData : String
  useCustomLogo : Bool
  dryRun : Bool
  taxRatePercent : Int
  fundsPercent : Int
  burnPercent : Int
  holdersPercent : Int
  liquidityPercent : Int
  beneficiaryAddress : String
deriving DecidableEq, Repr

/-! The packed launch snapshot (the object literal built at the end of
`packLaunchTx`). -/

structure PackedImage where
  imageUri : String
  isNsfw : Bool
  mime : String
  bytes : Nat
deriving DecidableEq, Repr

structure PackedMetadata where
  metadataUri : String
  isNsfw : Bool
deriving DecidableEq, Repr

structure PackedSalt where
  salt : String
  predictedTokenAddress : String
deriving DecidableEq, Repr

structure PackedFee where
  deployFeeAmount : String
  deployFeeMon : String
deriving DecidableEq, Repr

structure PackedInitialBuy where
  amount : String
  amountMon : String
deriving DecidableEq, Repr

structure CreateArgs where
  name : String
  symbol : String
  tokenURI : String
  amountOut : String
  salt : String
  actionId : Nat
deriving DecidableEq, Repr

structure PackedTx where
  /-- source field `to` (`to` is a reserved token in Lean) -/
  toAddr : String
  /-- source field `function` -/
  functionName : String
  args : CreateArgs
  value : String
  valueMon : String
deriving DecidableEq, Repr

structure PackedUi where
  note : String
  supplyFieldNotUsed : String
deriving DecidableEq, Repr

structure PackedLaunch where
  network : NadfunNetwork
  apiBaseUrl : String
  contracts : ContractSet
  image : PackedImage
  metadata : PackedMetadata
  salt : PackedSalt
  fee : PackedFee
  initialBuy : PackedInitialBuy
  minTokens : String
  tx : PackedTx
  ui : PackedUi
deriving DecidableEq, Repr

/-- The per-concept builder state, as persisted and restored. -/
structure BuilderState where
  buildStep : Int
  contractCode : String
  frontendPrompt : String
  contractAddress : Option String
  logos : List String
  selectedLogo : Int
  tokenForm : TokenForm
  packedLaunch : Option PackedLaunch
deriving DecidableEq, Repr

/-! ## Persistence (source: the persist effect, the restore effect and the
initial `useState` seeding — both read sites apply identical fallbacks)

A stored JSON object is modelled with one `Option` per field: `none` stands
for an absent key or a value of the wrong JSON type (both read through the
same `typeof`-guarded / `||` / `??` fallbacks in the source). -/

structure StoredTokenForm where
  name : Option String
  symbol : Option String
  supply : Option String
  description : Option String
  twitter : Option String
  telegram : Option String
  website : Option String
  initialBuyMon : Option String
  customLogoData : Option String
  useCustomLogo : Option Bool
  dryRun : Option Bool
  taxRatePercent : Option Int
  fundsPercent : Option Int
  burnPercent : Option Int
  holdersPercent : Option Int
  liquidityPercent : Option Int
  beneficiaryAddress : Option String
deriving DecidableEq, Repr

structure StoredBuilder where
  buildStep : Option Int
  contractCode : Option String
  frontendPrompt : Option String
  contractAddress : Option String
  logos : Option (List String)
  selectedLogo : Option Int
  tokenForm : Option StoredTokenForm
  packedLaunch : Option PackedLaunch
deriving DecidableEq, Repr

/-- The token-form read-back fallbacks (`|| default` on strings,
`?? default` on booleans and numbers). -/
def restoreTokenForm (st : Option StoredTokenForm) : TokenForm :=
  { name := jsOrO (st.bind (fun s => s.name)) ""
    symbol := jsOrO (st.bind (fun s => s.symbol)) ""
    supply := jsOrO (st.bind (fun s => s.supply)) "1000000000"
    description := jsOrO (st.bind (fun s => s.description)) ""
    twitter := jsOrO (st.bind (fun s => s.twitter)) "https://x.com/"
    telegram := jsOrO (st.bind (fun s => s.telegram)) "https://t.me/"
    website := jsOrO (st.bind (fun s => s.website)) "https://www.com"
    initialBuyMon := some (jsOrO (st.bind (fun s => s.initialBuyMon)) "0.1")
    customLogoData := jsOrO (st.bind (fun s => s.customLogoData)) ""
    useCustomLogo := (st.bind (fun s => s.useCustomLogo)).getD false
    dryRun := (st.bind (fun s => s.dryRun)).getD false
    taxRatePercent := (st.bind (fun s => s.taxRatePercent)).getD 3
    fundsPercent := (st.bind (fun s => s.fundsPercent)).getD 100
    burnPercent := (st.bind (fun s => s.burnPercent)).getD 0
    holdersPercent := (st.bind (fun s => s.holdersPercent)).getD 0
    liquidityPercent := (st.bind (fun s => s.liquidityPercent)).getD 0
    beneficiaryAddress := jsOrO (st.bind (fun s => s.beneficiaryAddress)) "" }

/-- The builder-state read-back: the `typeof`-guarded fallbacks of the
restore effect (the `else` branch and the initial `useState` seeding apply
the same per-field defaults, so `restoreBuilder none` is that default). -/
def restoreBuilder (st : Option StoredBuilder) : BuilderState :=
  { buildStep := (st.bind (fun s => s.buildStep)).getD 0
    contractCode := (st.bind (fun s => s.contractCode)).getD ""
    frontendPrompt := (st.bind (fun s => s.frontendPrompt)).getD ""
    contractAddress := st.bind (fun s => s.contractAddress)
    logos := (st.bind (fun s => s.logos)).getD []
    selectedLogo := (st.bind (fun s => s.selectedLogo)).getD 0
    tokenForm := restoreTokenForm (st.bind (fun s => s.tokenForm))
    packedLaunch := st.bind (fun s => s.packedLaunch) }

/-- `JSON.stringify` of the live token form: present fields serialize as
themselves; an `undefined` `initialBuyMon` is dropped from the JSON. -/
def persistTokenForm (tf : TokenForm) : StoredTokenForm :=
  { name := some tf.name, symbol := some tf.symbol, supply := some tf.supply
    description := some tf.description, twitter := some tf.twitter
    telegram := some tf.telegram, website := some tf.website
    initialBuyMon := tf.initialBuyMon, customLogoData := some tf.customLogoData
    useCustomLogo := some tf.useCustomLogo, dryRun := some tf.dryRun
    taxRatePercent := some tf.taxRatePercent, fundsPercent := some tf.fundsPercent
    burnPercent := some tf.burnPercent, holdersPercent := some tf.holdersPercent
    liquidityPercent := some tf.liquidityPercent
    beneficiaryAddress := some tf.beneficiaryAddress }

/-- The persist effect: the whole builder state serialized to the concept's
storage key. -/
def persistBuilder (s : BuilderState) : StoredBuilder :=
  { buildStep := some s.buildStep, contractCode := some s.contractCode
    frontendPrompt := some s.frontendPrompt, contractAddress := s.contractAddress
    logos := some s.logos, selectedLogo := some s.selectedLogo
    tokenForm := some (persistTokenForm s.tokenForm), packedLaunch := s.packedLaunch }

/-- The default builder state (all read-back fallbacks). -/
def defaultBuilderState : BuilderState := restoreBuilder none

/-! ## Stage-3 entry seeding (source: the `buildStep === 3` effect) -/

/-- `idea.title.replace(/[^A-Za-z]/g, '').slice(0, 4).toUpperCase() || 'NAD'`. -/
def symbolSeed (title : String) : String :=
  jsOr (String.mk (((title.data.filter Char.isAlpha).take 4).map Char.toUpper)) "NAD"

/-- The stage-3 entry effect: regenerates the logo set only when it is empty
and seeds each form field only where it is currently falsy. Returns the
updated state and whether `buildLogoSet` fired. -/
def stage3Seed (ideaTitle ideaTagline ideaDescription : String)
    (address : Option String) (s : BuilderState) : BuilderState × Bool :=
  if s.buildStep ≠ 3 then (s, false)
  else
    let regen := s.logos = []
    let logos' := if s.logos = [] then buildLogoSet ideaTitle else s.logos
    let selected' := if s.logos = [] then 0 else s.selectedLogo
    let tf := s.tokenForm
    let tf' : TokenForm :=
      { name := jsOr tf.name ideaTitle
        symbol := jsOr tf.symbol (symbolSeed ideaTitle)
        supply := jsOr tf.supply "1000000000"
        description := jsOr tf.description (jsOr ideaTagline (strTake ideaDescription 120))
        twitter := jsOr tf.twitter "https://x.com/"
        telegram := jsOr tf.telegram "https://t.me/"
        website := jsOr tf.website "https://www.com"
        initialBuyMon := some (jsOrO tf.initialBuyMon "0.1")
        customLogoData := jsOr tf.customLogoData ""
        useCustomLogo := tf.useCustomLogo
        dryRun := tf.dryRun
        taxRatePercent := tf.taxRatePercent
        fundsPercent := tf.fundsPercent
        burnPercent := tf.burnPercent
        holdersPercent := tf.holdersPercent
        liquidityPercent := tf.liquidityPercent
        beneficiaryAddress := jsOr tf.beneficiaryAddress (address.getD "") }
    ({ s with logos := logos', selectedLogo := selected', tokenForm := tf' }, decide regen)

/-- Whether the stage-2 effect fires its prompt generation
(`if (buildStep !== 2 || frontendPrompt) return`). -/
def stage2PromptFires (s : BuilderState) : Bool :=
  s.buildStep == 2 && s.frontendPrompt == ""

/-! ## Reset (source: `handleResetCache`) -/

/-- The modal's mutable state around the builder. -/
structure ModalState where
  builder : BuilderState
  buildLogs : List String
  isContractDeploying : Bool
  isMinting : Bool
  txHash : Option String
deriving DecidableEq, Repr

/-- The two persisted per-concept keys. -/
structure Storage where
  builderKey : Option StoredBuilder
  logsKey : Option (List String)
deriving DecidableEq, Repr

/-- The token form `handleResetCache` installs: note the empty social links
and the absent `initialBuyMon` (differing from the initial defaults). -/
def resetTokenForm (address : Option String) : TokenForm :=
  { name := "", symbol := "", supply := "1000000000", description := ""
    twitter := "", telegram := "", website := ""
    initialBuyMon := none
    customLogoData := "", useCustomLogo := false, dryRun := false
    taxRatePercent := 3, fundsPercent := 100, burnPercent := 0
    holdersPercent := 0, liquidityPercent := 0
    beneficiaryAddress := address.getD "" }

/-- Source `handleResetCache`: removes both persisted keys and resets the
in-memory fields it touches. `packedLaunch` is not among them. -/
def handleResetCache (address : Option String) (st : ModalState) (_store : Storage) :
    ModalState × Storage :=
  ( { builder :=
        { buildStep := 0, contractCode := "", frontendPrompt := ""
          contractAddress := none, logos := [], selectedLogo := 0
          tokenForm := resetTokenForm address
          packedLaunch := st.builder.packedLaunch }
      buildLogs := [], isContractDeploying := false, isMinting := false, txHash := none },
    { builderKey := none, logsKey := none } )

/-! ## Payload packer (source: `packLaunchTx`) -/

/-- A network call the packer performs, tagged with the network argument the
source passes. -/
inductive NetCall
  | uploadImage (network : NadfunNetwork)
  | uploadMetadata (network : NadfunNetwork)
  | mineSalt (network : NadfunNetwork)
  | getFeeConfig (network : NadfunNetwork)
  | getInitialBuyAmountOut (amountIn : Int) (network : NadfunNetwork)
deriving DecidableEq, Repr

def netCallNetwork : NetCall → NadfunNetwork
  | .uploadImage n => n
  | .uploadMetadata n => n
  | .mineSalt n => n
  | .getFeeConfig n => n
  | .getInitialBuyAmountOut _ n => n

/-- The parameters `packLaunchTx` sends to `uploadMetadata`. -/
structure UploadMetadataParams where
  imageUri : String
  name : String
  symbol : String
  description : String
  website : String
  twitter : String
  telegram : String
deriving DecidableEq, Repr

/-- Oracles for the awaited external effects of one `packLaunchTx` run
(`Except.error` models a rejected promise, whose message reaches the
`catch` block). -/
structure PackEnv where
  svgToPng : Except String Blob
  uploadImage : Blob → String → Except String UploadImageResult
  uploadMetadata : UploadMetadataParams → Except String UploadMetadataResult
  mineSalt : MineSaltParams → Except String MineSaltResult
  getFeeConfig : Except String FeeConfig
  getInitialBuyAmountOut : Int → Except String Int

/-- The component state `packLaunchTx` reads. -/
structure PackInput where
  isPacking : Bool
  isConnected : Bool
  address : Option String
  publicClientAvailable : Bool
  chainId : Nat
  tokenForm : TokenForm
  logos : List String
  selectedLogo : Int

/-- What one `packLaunchTx` run produced: the appended log lines, the
network calls performed (in order), and the new `packedLaunch` if one was
set. -/
structure PackResult where
  logs : List String
  calls : List NetCall
  packed? : Option PackedLaunch
deriving Repr

/-- `Pack failed: ${error?.message || 'Unknown error'}`. -/
def packFailMsg (e : String) : String :=
  "Pack failed: " ++ jsOr e "Unknown error"

/-- `tokenForm.useCustomLogo ? tokenForm.customLogoData : logos[selectedLogo] || ''`. -/
def imageDataOf (inp : PackInput) : String :=
  if inp.tokenForm.useCustomLogo then inp.tokenForm.customLogoData
  else
    jsOr (if 0 ≤ inp.selectedLogo then inp.logos.getD inp.selectedLogo.toNat "" else "") ""

/-- `String(tokenForm.initialBuyMon || '0').trim()`. -/
def rawInitialBuy (tf : TokenForm) : String :=
  jsTrim (jsOrO tf.initialBuyMon "0")

/-- `raw ? parseEther(raw) : 0n`, `none` for the caught parse error. -/
def initialBuyOf (tf : TokenForm) : Option Int :=
  let raw := rawInitialBuy tf
  if raw = "" then some 0 else parseEther? raw

def packMetaParams (inp : PackInput) (imageRes : UploadImageResult) : UploadMetadataParams :=
  { imageUri := imageRes.imageUri
    name := (jsTrim inp.tokenForm.name)
    symbol := (jsTrim inp.tokenForm.symbol)
    description := inp.tokenForm.description
    website := inp.tokenForm.website
    twitter := inp.tokenForm.twitter
    telegram := inp.tokenForm.telegram }

def packSaltParams (inp : PackInput) (metadataRes : UploadMetadataResult) : MineSaltParams :=
  { creator := inp.address.getD ""
    name := (jsTrim inp.tokenForm.name)
    symbol := (jsTrim inp.tokenForm.symbol)
    metadataUri := metadataRes.metadataUri }

/-- Assembly of the `packed` object literal and the final log line. -/
def finishPack (inp : PackInput) (imageBlob : Blob) (imageRes : UploadImageResult)
    (metadataRes : UploadMetadataResult) (saltRes : MineSaltResult) (feeConfig : FeeConfig)
    (initialBuyAmount minTokens : Int) (logs : List String) (calls : List NetCall) :
    PackResult :=
  let totalValue := feeConfig.deployFeeAmount + initialBuyAmount
  let packed : PackedLaunch :=
    { network := NADFUN_NETWORK
      apiBaseUrl := "nad.fun"
      contracts := NADFUN_CONTRACTS NADFUN_NETWORK
      image :=
        { imageUri := imageRes.imageUri, isNsfw := imageRes.isNsfw
          mime := imageBlob.mime, bytes := imageBlob.bytes }
      metadata := { metadataUri := metadataRes.metadataUri, isNsfw := metadataRes.metadata.isNsfw }
      salt := { salt := saltRes.salt, predictedTokenAddress := saltRes.address }
      fee :=
        { deployFeeAmount := toString feeConfig.deployFeeAmount
          deployFeeMon := formatEther feeConfig.deployFeeAmount }
      initialBuy := { amount := toString initialBuyAmount, amountMon := formatEther initialBuyAmount }
      minTokens := toString minTokens
      tx :=
        { toAddr := (NADFUN_CONTRACTS NADFUN_NETWORK).BONDING_CURVE_ROUTER
          functionName := "create"
          args :=
            { name := (jsTrim inp.tokenForm.name), symbol := (jsTrim inp.tokenForm.symbol)
              tokenURI := metadataRes.metadataUri, amountOut := toString minTokens
              salt := saltRes.salt, actionId := 1 }
          value := toString totalValue
          valueMon := formatEther totalValue }
      ui :=
        { note := "Packed tx is ready. Next step: sign & send in your wallet."
          supplyFieldNotUsed := inp.tokenForm.supply } }
  { logs := logs ++ ["Packed create tx. Value: " ++ formatEther totalValue ++ " MON"]
    calls := calls, packed? := some packed }

/-- The text of source `packLaunchTx`: re-entrancy guard, precondition
checks, the authorize line, logo decode and rasterization,
name/symbol/amount validation, then the fixed call sequence image →
metadata → salt → fee → (conditional) quote, ending in the packed snapshot.
Every stage failure aborts with a `Pack failed:` log line and leaves no
packed launch.

`auth` is the outcome of evaluating the authorize line
`if (walletClient) { await ensureWalletAuthorized(walletClient); }` —
`Except.error` models a throw into the surrounding catch. The staged
program's own semantics is `packLaunchTx` below, which fixes `auth` to the
`ReferenceError` that the undeclared identifier `walletClient` raises; the
stages below that line are then unreachable, exactly as in the program. -/
def packLaunchTxAuth (auth : Except String Unit) (env : PackEnv) (inp : PackInput) : PackResult :=
  if inp.isPacking then { logs := [], calls := [], packed? := none } else
  if inp.isConnected = false ∨ inp.address = none then
    { logs := ["Wallet not connected. Please connect to launch."], calls := [], packed? := none }
  else if inp.publicClientAvailable = false then
    { logs := ["Public client unavailable."], calls := [], packed? := none }
  else if inp.chainId ≠ monadTestnetId then
    { logs := ["Wrong network. Please switch to Monad Testnet."], calls := [], packed? := none }
  else
    let l0 := ["Authorizing wallet..."]
    match auth with
    | .error e => { logs := l0 ++ [packFailMsg e], calls := [], packed? := none }
    | .ok _ =>
    match dataUrlToBlob (imageDataOf inp) with
    | none => { logs := l0 ++ ["Invalid logo data."], calls := [], packed? := none }
    | some rawBlob =>
    match (if rawBlob.mime = "image/svg+xml" then env.svgToPng else Except.ok rawBlob) with
    | .error e => { logs := l0 ++ [packFailMsg e], calls := [], packed? := none }
    | .ok imageBlob =>
    if (jsTrim inp.tokenForm.name) = "" ∨ 20 < (jsTrim inp.tokenForm.name).length then
      { logs := l0 ++ ["Token name is required and must be 1-20 characters."]
        calls := [], packed? := none }
    else if (jsTrim inp.tokenForm.symbol) = "" ∨ 10 < (jsTrim inp.tokenForm.symbol).length then
      { logs := l0 ++ ["Token symbol is required and must be 1-10 characters."]
        calls := [], packed? := none }
    else
    match initialBuyOf inp.tokenForm with
    | none =>
      { logs := l0 ++ ["Invalid initial buy amount. Use a number like 0, 0.1, 1.25"]
        calls := [], packed? := none }
    | some initialBuyAmount =>
    let l1 := l0 ++ ["Nad.fun: uploading image..."]
    let c1 := [NetCall.uploadImage NADFUN_NETWORK]
    match env.uploadImage imageBlob imageBlob.mime with
    | .error e => { logs := l1 ++ [packFailMsg e], calls := c1, packed? := none }
    | .ok imageRes =>
    let l2 := l1 ++ ["Nad.fun: uploading metadata..."]
    let c2 := c1 ++ [NetCall.uploadMetadata NADFUN_NETWORK]
    match env.uploadMetadata (packMetaParams inp imageRes) with
    | .error e => { logs := l2 ++ [packFailMsg e], calls := c2, packed? := none }
    | .ok metadataRes =>
    let l3 := l2 ++ ["Nad.fun: mining salt..."]
    let c3 := c2 ++ [NetCall.mineSalt NADFUN_NETWORK]
    match env.mineSalt (packSaltParams inp metadataRes) with
    | .error e => { logs := l3 ++ [packFailMsg e], calls := c3, packed? := none }
    | .ok saltRes =>
    let l4 := l3 ++ ["Reading deploy fee..."]
    let c4 := c3 ++ [NetCall.getFeeConfig NADFUN_NETWORK]
    match env.getFeeConfig with
    | .error e => { logs := l4 ++ [packFailMsg e], calls := c4, packed? := none }
    | .ok feeConfig =>
    if 0 < initialBuyAmount then
      let l5 := l4 ++ ["Calculating initial buy amount out..."]
      let c5 := c4 ++ [NetCall.getInitialBuyAmountOut initialBuyAmount NADFUN_NETWORK]
      match env.getInitialBuyAmountOut initialBuyAmount with
      | .error e => { logs := l5 ++ [packFailMsg e], calls := c5, packed? := none }
      | .ok minTokens =>
        finishPack inp imageBlob imageRes metadataRes saltRes feeConfig initialBuyAmount minTokens l5 c5
    else
      finishPack inp imageBlob imageRes metadataRes saltRes feeConfig initialBuyAmount 0 l4 c4

/-- Message of the `ReferenceError` raised by evaluating the undeclared
identifier `walletClient`. -/
def referenceErrorWalletClient : String := "walletClient is not defined"

/-- Source `packLaunchTx` as staged: the component declares no
`walletClient` binding anywhere (its only hooks are `useWriteContract`,
`useAccount`, `useChainId`, `usePublicClient`; there is no `useWalletClient`
and no import or module-level binding), so in the strict-mode module every
run that passes the precondition checks throws `ReferenceError` at
`if (walletClient)` and the catch logs
`Pack failed: walletClient is not defined`. The validation, upload, salt,
fee, quote and packing stages below that line are unreachable. -/
def packLaunchTx (env : PackEnv) (inp : PackInput) : PackResult :=
  packLaunchTxAuth (Except.error referenceErrorWalletClient) env inp

/-! ## Transaction submitter (source: `signAndLaunch`) -/

/-- The write request `signAndLaunch` hands to `writeContractAsync`. -/
structure WriteReq where
  address : String
  functionName : String
  name : String
  symbol : String
  tokenURI : String
  amountOut : Int
  salt : String
  actionId : Nat
  value : Int
  chainId : Nat
  account : String
deriving DecidableEq, Repr

/-- Oracles for the submitter's external effects. -/
structure LaunchEnv where
  writeContract : WriteReq → Except String String
  waitForReceipt : String → Except String Receipt

/-- The component state `signAndLaunch` reads. -/
structure LaunchInput where
  isMinting : Bool
  packedLaunch : Option PackedLaunch
  publicClientAvailable : Bool
  isConnected : Bool
  address : Option String
  chainId : Nat
  dryRun : Bool

/-- What one `signAndLaunch` run produced: appended log lines, the write
request submitted to the wallet (if any), the recorded tx hash (if set) and
the resulting `packedLaunch` state. -/
structure LaunchResult where
  logs : List String
  sent : Option WriteReq
  txHash : Option String
  packedLaunch : Option PackedLaunch

/-- `Launch failed: ${error?.message || 'Unknown error'}`. -/
def launchFailMsg (e : String) : String :=
  "Launch failed: " ++ jsOr e "Unknown error"

/-- JS `TypeError` message of a failed `BigInt(...)` conversion (exact
engine text is irrelevant to every property verified here). -/
def bigIntErrorMsg : String := "Cannot convert string to a BigInt"

def writeReqOf (p : PackedLaunch) (account : String) (value amountOut : Int) : WriteReq :=
  { address := (NADFUN_CONTRACTS NADFUN_NETWORK).BONDING_CURVE_ROUTER
    functionName := "create"
    name := p.tx.args.name, symbol := p.tx.args.symbol, tokenURI := p.tx.args.tokenURI
    amountOut := amountOut, salt := p.tx.args.salt, actionId := 1
    value := value, chainId := monadTestnetId, account := account }

/-- Source `signAndLaunch`: guards, dry-run short-circuit, value and
amount-out reconstruction via `BigInt`, wallet write, receipt wait, creation
event decode, and the clearing of `packedLaunch` after a confirmed send. -/
def signAndLaunch (env : LaunchEnv) (inp : LaunchInput) : LaunchResult :=
  if inp.isMinting then
    { logs := [], sent := none, txHash := none, packedLaunch := inp.packedLaunch } else
  match inp.packedLaunch with
  | none =>
    { logs := ["No packed tx found. Pack the tx first."]
      sent := none, txHash := none, packedLaunch := none }
  | some p =>
    if inp.publicClientAvailable = false then
      { logs := ["Public client unavailable."], sent := none, txHash := none, packedLaunch := some p }
    else if inp.isConnected = false ∨ inp.address = none then
      { logs := ["Wallet not connected. Please connect to launch."]
        sent := none, txHash := none, packedLaunch := some p }
    else if inp.chainId ≠ monadTestnetId then
      { logs := ["Wrong network. Please switch to Monad Testnet."]
        sent := none, txHash := none, packedLaunch := some p }
    else if inp.dryRun then
      { logs := ["DRY RUN enabled. Skipping signature + send."]
        sent := none, txHash := none, packedLaunch := some p }
    else
    match bigIntOfString? (jsOr p.tx.value "0") with
    | none =>
      { logs := [launchFailMsg bigIntErrorMsg], sent := none, txHash := none, packedLaunch := some p }
    | some value =>
    if p.tx.args.tokenURI = "" ∨ p.tx.args.salt = "" then
      { logs := ["Packed tx missing fields. Re-pack and try again."]
        sent := none, txHash := none, packedLaunch := some p }
    else
    let l1 := ["Requesting wallet signature..."]
    match bigIntOfString? (jsOr p.tx.args.amountOut "0") with
    | none =>
      { logs := l1 ++ [launchFailMsg bigIntErrorMsg]
        sent := none, txHash := none, packedLaunch := some p }
    | some amountOut =>
    let req := writeReqOf p (inp.address.getD "") value amountOut
    match env.writeContract req with
    | .error e =>
      { logs := l1 ++ [launchFailMsg e], sent := some req, txHash := none, packedLaunch := some p }
    | .ok hash =>
    let l2 := l1 ++ ["Tx sent: " ++ hash]
    match env.waitForReceipt hash with
    | .error e =>
      { logs := l2 ++ [launchFailMsg e], sent := some req, txHash := some hash, packedLaunch := some p }
    | .ok receipt =>
      match parseCurveCreateFromReceipt receipt with
      | some created =>
        { logs := l2 ++ ["Token deployed: " ++ created.token, "Pool: " ++ created.pool]
          sent := some req, txHash := some hash, packedLaunch := none }
      | none =>
        { logs := l2 ++ ["Tx confirmed. Token address not found in logs (CurveCreate)."]
          sent := some req, txHash := some hash, packedLaunch := none }

/-! ## Concrete fixtures used to exercise the theorems -/

def sampleImageRes : UploadImageResult := { imageUri := "ipfs://image", isNsfw := false }

def sampleMetaRes : UploadMetadataResult :=
  { metadataUri := "ipfs://meta"
    metadata :=
      { name := "Token", symbol := "TOK", description := "d", imageUri := "ipfs://image"
        website := none, twitter := none, telegram := none, isNsfw := false } }

def sampleSaltRes : MineSaltResult := { salt := "0xsalt", address := "0xpredicted" }

def sampleFee : FeeConfig := { deployFeeAmount := 10, graduateFeeAmount := 20, protocolFee := 100 }

def sampleEnv : PackEnv :=
  { svgToPng := Except.ok { mime := "image/png", bytes := 99 }
    uploadImage := fun _ _ => Except.ok sampleImageRes
    uploadMetadata := fun _ => Except.ok sampleMetaRes
    mineSalt := fun _ => Except.ok sampleSaltRes
    getFeeConfig := Except.ok sampleFee
    getInitialBuyAmountOut := fun a => Except.ok (a * 2) }

def sampleForm : TokenForm :=
  { name := "Token", symbol := "TOK", supply := "1000000000", description := "d"
    twitter := "https://x.com/", telegram := "https://t.me/", website := "https://www.com"
    initialBuyMon := some "0.1", customLogoData := "", useCustomLogo := false, dryRun := false
    taxRatePercent := 3, fundsPercent := 100, burnPercent := 0, holdersPercent := 0
    liquidityPercent := 0, beneficiaryAddress := "" }

def sampleInput : PackInput :=
  { isPacking := false, isConnected := true, address := some "0xabc"
    publicClientAvailable := true, chainId := monadTestnetId, tokenForm := sampleForm
    logos := ["data:image/png;base64,AAAA"], selectedLogo := 0 }

/-- The packed launch `packLaunchTxAuth (Except.ok ()) sampleEnv sampleInput`
produces (the pipeline below the defective authorize line). -/
def samplePacked : PackedLaunch :=
  { network := NadfunNetwork.mainnet
    apiBaseUrl := "nad.fun"
    contracts := NADFUN_CONTRACTS NadfunNetwork.mainnet
    image := { imageUri := "ipfs://image", isNsfw := false, mime := "image/png", bytes := 4 }
    metadata := { metadataUri := "ipfs://meta", isNsfw := false }
    salt := { salt := "0xsalt", predictedTokenAddress := "0xpredicted" }
    fee := { deployFeeAmount := "10", deployFeeMon := "0.00000000000000001" }
    initialBuy := { amount := "100000000000000000", amountMon := "0.1" }
    minTokens := "200000000000000000"
    tx :=
      { toAddr := "0x6F6B8F1a20703309951a5127c45B49b1CD981A22"
        functionName := "create"
        args :=
          { name := "Token", symbol := "TOK", tokenURI := "ipfs://meta"
            amountOut := "200000000000000000", salt := "0xsalt", actionId := 1 }
        value := "100000000000000010"
        valueMon := "0.10000000000000001" }
    ui :=
      { note := "Packed tx is ready. Next step: sign & send in your wallet."
        supplyFieldNotUsed := "1000000000" } }

/-! ## The dead pipeline below the authorize line -/

/-- Calls through the fee read (no quote), as the pipeline below the
defective authorize line would perform them. -/
def callsThroughFee : List NetCall :=
  [NetCall.uploadImage NADFUN_NETWORK, NetCall.uploadMetadata NADFUN_NETWORK,
   NetCall.mineSalt NADFUN_NETWORK, NetCall.getFeeConfig NADFUN_NETWORK]

/-- On the staged program every `packLaunchTx` run performs no network call
and produces no packed launch: each precondition exit returns empty-handed,
and every run past the preconditions throws at the undeclared
`walletClient` reference before any stage runs. -/
lemma pack_dead (env : PackEnv) (inp : PackInput) :
    (packLaunchTx env inp).calls = [] ∧ (packLaunchTx env inp).packed? = none := by
  unfold packLaunchTx packLaunchTxAuth
  repeat' split <;> simp_all

/-! ## Claim theorems -/

def c1Input : PackInput :=
  { sampleInput with tokenForm := { sampleForm with name := "ThisNameIsWayTooLongForAToken" } }

/-- C1 (code bug): the claim says an over-long (or empty) trimmed name or
symbol makes `packLaunchTx` log a validation error and return with no
upload/metadata/salt/fee/quote call and no packed launch. On the staged
program no run ever reaches validation: `walletClient` is declared nowhere,
so every precondition-passing run throws `ReferenceError` at
`if (walletClient)` and logs `Pack failed: walletClient is not defined` —
the validation message is unreachable (though indeed no network call is made
and nothing is packed). The pipeline below the defective line — the claim's
evident intent — does log the validation error with no call and no pack,
shown here on `c1Input` (name of 29 characters) with the authorize outcome
forced to success. -/
theorem c1_validation_unreachable :
    (∀ env inp, (packLaunchTx env inp).calls = [] ∧ (packLaunchTx env inp).packed? = none) ∧
    (packLaunchTx sampleEnv c1Input).logs =
      ["Authorizing wallet...", "Pack failed: walletClient is not defined"] ∧
    "Token name is required and must be 1-20 characters." ∉ (packLaunchTx sampleEnv c1Input).logs ∧
    (packLaunchTxAuth (Except.ok ()) sampleEnv c1Input).logs =
      ["Authorizing wallet...", "Token name is required and must be 1-20 characters."] ∧
    (packLaunchTxAuth (Except.ok ()) sampleEnv c1Input).calls = [] ∧
    (packLaunchTxAuth (Except.ok ()) sampleEnv c1Input).packed? = none :=
  ⟨pack_dead, by decide, by decide, by decide, by decide, by decide⟩

def c2InputEmpty : PackInput :=
  { sampleInput with tokenForm := { sampleForm with initialBuyMon := some "" } }

def c2InputZero : PackInput :=
  { sampleInput with tokenForm := { sampleForm with initialBuyMon := some "0" } }

/-- C2 (code bug): the claim describes the buy-amount handling —
`initialBuyMon` of `""`/`"0"` gives amount 0, a skipped quote and
`minTokens = "0"`, `"0.1"` gives amount `10^17` and one quote call with that
`amountIn`, and the packed value is `deployFeeAmount + initialBuyAmount`.
On the staged program that code is unreachable: every run aborts at the
undeclared `walletClient` reference with
`Pack failed: walletClient is not defined`, so no quote call ever fires and
nothing is packed. The pipeline below the defective line — the claim's
evident intent — computes exactly the claimed amounts, calls and value
(with `sampleFee.deployFeeAmount = 10`: value `"10"` for a zero buy and
`"100000000000000010" = 10 + 10^17` for `"0.1"`), shown with the authorize
outcome forced to success. -/
theorem c2_initial_buy_quote_unreachable :
    (∀ env inp, (packLaunchTx env inp).calls = [] ∧ (packLaunchTx env inp).packed? = none) ∧
    (packLaunchTx sampleEnv sampleInput).logs =
      ["Authorizing wallet...", "Pack failed: walletClient is not defined"] ∧
    (packLaunchTxAuth (Except.ok ()) sampleEnv c2InputEmpty).calls = callsThroughFee ∧
    (packLaunchTxAuth (Except.ok ()) sampleEnv c2InputEmpty).packed?.map
      (fun p => (p.initialBuy.amount, p.minTokens, p.tx.value)) = some ("0", "0", "10") ∧
    (packLaunchTxAuth (Except.ok ()) sampleEnv c2InputZero).calls = callsThroughFee ∧
    (packLaunchTxAuth (Except.ok ()) sampleEnv c2InputZero).packed?.map
      (fun p => (p.initialBuy.amount, p.minTokens, p.tx.value)) = some ("0", "0", "10") ∧
    (packLaunchTxAuth (Except.ok ()) sampleEnv sampleInput).calls =
      callsThroughFee ++ [NetCall.getInitialBuyAmountOut 100000000000000000 NADFUN_NETWORK] ∧
    (packLaunchTxAuth (Except.ok ()) sampleEnv sampleInput).packed?.map
      (fun p => (p.initialBuy.amount, p.minTokens, p.tx.value)) =
      some ("100000000000000000", "200000000000000000", "100000000000000010") :=
  ⟨pack_dead, by decide, by decide, by decide, by decide, by decide, by decide, by decide⟩

/-- C10 (implicit): `NADFUN_NETWORK` is `'mainnet'`, so every packed launch
targets the mainnet deployment — `tx.to` is the mainnet
`BONDING_CURVE_ROUTER`, the packed contract set is the mainnet one, and every
network call of the packer carries the mainnet tag — even though the
precondition check requires the connected chain id to equal the Monad
Testnet id (a run on any other chain id performs no call and packs
nothing). The packed-launch and call conjuncts are quantified over every
outcome of the authorize line, a superset of the staged program's behavior
(`packLaunchTx` fixes that outcome to the `walletClient` `ReferenceError`),
so they hold in particular for the program itself. -/
theorem c10_pack_targets_mainnet :
    NADFUN_NETWORK = NadfunNetwork.mainnet ∧
    (∀ auth env inp p, (packLaunchTxAuth auth env inp).packed? = some p →
      p.network = NadfunNetwork.mainnet ∧
      p.contracts = NADFUN_CONTRACTS NadfunNetwork.mainnet ∧
      p.tx.toAddr = (NADFUN_CONTRACTS NadfunNetwork.mainnet).BONDING_CURVE_ROUTER) ∧
    (∀ auth env inp c, c ∈ (packLaunchTxAuth auth env inp).calls →
      netCallNetwork c = NadfunNetwork.mainnet) ∧
    (∀ env inp, inp.chainId ≠ monadTestnetId →
      (packLaunchTx env inp).calls = [] ∧ (packLaunchTx env inp).packed? = none) := by
  refine ⟨rfl, ?_, ?_, ?_⟩
  · intro auth env inp p h
    unfold packLaunchTxAuth at h
    repeat' split at h
    all_goals simp_all [finishPack, NADFUN_NETWORK]
    all_goals (subst h; exact ⟨rfl, rfl, rfl⟩)
  · intro auth env inp c hc
    unfold packLaunchTxAuth at hc
    repeat' split at hc
    all_goals simp_all [finishPack, netCallNetwork, NADFUN_NETWORK]
    all_goals (rcases hc with hc | hc | hc | hc | hc <;> simp_all [netCallNetwork])
  · intro env inp h
    unfold packLaunchTx packLaunchTxAuth
    repeat' split
    all_goals simp_all

/-! ## Receipt-parsing helper lemmas and the submitter run equation -/

lemma decode_eventName (l : RLog) (ev : CurveCreateDecoded)
    (h : decodeEventLogCurveAbi l = some ev) : ev.eventName = "CurveCreate" := by
  unfold decodeEventLogCurveAbi at h
  split at h
  · split at h
    · cases h; rfl
    · cases h
  · cases h

lemma parse_skips_undecodable (pre rest : List RLog)
    (hpre : ∀ l ∈ pre, decodeEventLogCurveAbi l = none) :
    parseCurveCreateLogs (pre ++ rest) = parseCurveCreateLogs rest := by
  induction pre with
  | nil => rfl
  | cons l pre ih =>
    have hl := hpre l (List.mem_cons_self l pre)
    have ih' := ih (fun x hx => hpre x (List.mem_cons_of_mem l hx))
    simp [parseCurveCreateLogs, hl, ih']

lemma parse_none_of_all_undecodable (logs : List RLog)
    (hnone : ∀ l ∈ logs, decodeEventLogCurveAbi l = none) :
    parseCurveCreateLogs logs = none := by
  have := parse_skips_undecodable logs [] hnone
  simpa using this

lemma launch_confirmed_eq (env : LaunchEnv) (inp : LaunchInput) (p : PackedLaunch)
    (a h : String) (v ao : Int) (rc : Receipt)
    (hm : inp.isMinting = false) (hpl : inp.packedLaunch = some p)
    (hcli : inp.publicClientAvailable = true) (hc : inp.isConnected = true)
    (ha : inp.address = some a) (hch : inp.chainId = monadTestnetId) (hdr : inp.dryRun = false)
    (hv : bigIntOfString? (jsOr p.tx.value "0") = some v)
    (hfld : ¬ (p.tx.args.tokenURI = "" ∨ p.tx.args.salt = ""))
    (hao : bigIntOfString? (jsOr p.tx.args.amountOut "0") = some ao)
    (hw : env.writeContract (writeReqOf p a v ao) = Except.ok h)
    (hr : env.waitForReceipt h = Except.ok rc) :
    signAndLaunch env inp =
      match parseCurveCreateFromReceipt rc with
      | some created =>
        { logs := ["Requesting wallet signature...", "Tx sent: " ++ h,
                   "Token deployed: " ++ created.token, "Pool: " ++ created.pool]
          sent := some (writeReqOf p a v ao), txHash := some h, packedLaunch := none }
      | none =>
        { logs := ["Requesting wallet signature...", "Tx sent: " ++ h,
                   "Tx confirmed. Token address not found in logs (CurveCreate)."]
          sent := some (writeReqOf p a v ao), txHash := some h, packedLaunch := none } := by
  unfold signAndLaunch
  rw [hm, hpl]
  simp only [hcli, hc, ha, hch, hdr, hv, hfld, hao, hw, hr]
  simp [hfld]
  rw [hw]
  simp [hr]

/-- C3: `parseCurveCreateFromReceipt` returns token and pool of the first
log entry that decodes as `CurveCreate`, skipping undecodable entries
without raising; with no decodable entry it returns `none`, and the
submitter then logs the non-fatal address-not-found line while still
completing the confirmation path (hash recorded, packed launch cleared). -/
theorem c3_parse_curve_create_first_decodable
    (pre post : List RLog) (g : RLog) (ev : CurveCreateDecoded)
    (hpre : ∀ l ∈ pre, decodeEventLogCurveAbi l = none)
    (hg : decodeEventLogCurveAbi g = some ev)
    (env : LaunchEnv) (inp : LaunchInput) (p : PackedLaunch)
    (a h : String) (v ao : Int) (rc : Receipt)
    (hm : inp.isMinting = false) (hpl : inp.packedLaunch = some p)
    (hcli : inp.publicClientAvailable = true) (hc : inp.isConnected = true)
    (ha : inp.address = some a) (hch : inp.chainId = monadTestnetId) (hdr : inp.dryRun = false)
    (hv : bigIntOfString? (jsOr p.tx.value "0") = some v)
    (hfld : ¬ (p.tx.args.tokenURI = "" ∨ p.tx.args.salt = ""))
    (hao : bigIntOfString? (jsOr p.tx.args.amountOut "0") = some ao)
    (hw : env.writeContract (writeReqOf p a v ao) = Except.ok h)
    (hr : env.waitForReceipt h = Except.ok rc)
    (hnone : ∀ l ∈ rc.logs, decodeEventLogCurveAbi l = none) :
    parseCurveCreateFromReceipt { logs := pre ++ g :: post } =
      some { token := ev.token, pool := ev.pool } ∧
    parseCurveCreateFromReceipt rc = none ∧
    "Tx confirmed. Token address not found in logs (CurveCreate)." ∈ (signAndLaunch env inp).logs ∧
    (signAndLaunch env inp).txHash = some h ∧
    (signAndLaunch env inp).packedLaunch = none := by
  have hfirst : parseCurveCreateFromReceipt { logs := pre ++ g :: post } =
      some { token := ev.token, pool := ev.pool } := by
    unfold parseCurveCreateFromReceipt
    rw [parse_skips_undecodable pre (g :: post) hpre]
    simp [parseCurveCreateLogs, hg, decode_eventName g ev hg]
  have hempty : parseCurveCreateFromReceipt rc = none :=
    parse_none_of_all_undecodable rc.logs hnone
  have hrun := launch_confirmed_eq env inp p a h v ao rc hm hpl hcli hc ha hch hdr hv hfld hao hw hr
  rw [hempty] at hrun
  rw [hrun]
  exact ⟨hfirst, hempty, by simp, rfl, rfl⟩

def undecodableLog : RLog := { topics := ["0xother"], dataDecodes := true }

def decodableLog : RLog :=
  { topics := [curveCreateTopic, "0xcreator", "0xtoken", "0xpool"], dataDecodes := true }

def noCreateReceipt : Receipt := { logs := [undecodableLog, undecodableLog, undecodableLog] }

def launchEnv0 : LaunchEnv :=
  { writeContract := fun _ => Except.ok "0xhash"
    waitForReceipt := fun _ => Except.ok noCreateReceipt }

def launchInput0 : LaunchInput :=
  { isMinting := false, packedLaunch := some samplePacked, publicClientAvailable := true
    isConnected := true, address := some "0xabc", chainId := monadTestnetId, dryRun := false }

theorem c3_parse_curve_create_first_decodable_witness :
    parseCurveCreateFromReceipt { logs := [undecodableLog, undecodableLog, undecodableLog] ++ decodableLog :: [] } =
      some { token := "0xtoken", pool := "0xpool" } ∧
    parseCurveCreateFromReceipt noCreateReceipt = none ∧
    "Tx confirmed. Token address not found in logs (CurveCreate)." ∈
      (signAndLaunch launchEnv0 launchInput0).logs ∧
    (signAndLaunch launchEnv0 launchInput0).txHash = some "0xhash" ∧
    (signAndLaunch launchEnv0 launchInput0).packedLaunch = none :=
  c3_parse_curve_create_first_decodable
    [undecodableLog, undecodableLog, undecodableLog] [] decodableLog
    { eventName := "CurveCreate", creator := "0xcreator", token := "0xtoken", pool := "0xpool" }
    (by decide) (by decide)
    launchEnv0 launchInput0 samplePacked "0xabc" "0xhash"
    100000000000000010 200000000000000000 noCreateReceipt
    rfl rfl rfl rfl rfl rfl rfl (by decide) (by decide) (by decide) rfl rfl (by decide)

/-- C4: `signAndLaunch` never submits the same packed launch twice: a run
whose send and confirmation succeed ends with `packedLaunch = none`, a run
with no packed launch performs no send (a fresh pack is required), and the
dry-run flag short-circuits with a log line, no send, and the packed launch
unchanged. -/
theorem c4_no_double_send (env : LaunchEnv) (inp : LaunchInput) :
    (inp.isMinting = false → inp.packedLaunch = none →
      (signAndLaunch env inp).sent = none ∧
      "No packed tx found. Pack the tx first." ∈ (signAndLaunch env inp).logs) ∧
    (∀ p, inp.isMinting = false → inp.packedLaunch = some p →
      inp.publicClientAvailable = true → inp.isConnected = true → inp.address ≠ none →
      inp.chainId = monadTestnetId → inp.dryRun = true →
      (signAndLaunch env inp).sent = none ∧ (signAndLaunch env inp).txHash = none ∧
      (signAndLaunch env inp).packedLaunch = some p ∧
      "DRY RUN enabled. Skipping signature + send." ∈ (signAndLaunch env inp).logs) ∧
    (∀ p a v ao h rc, inp.isMinting = false → inp.packedLaunch = some p →
      inp.publicClientAvailable = true → inp.isConnected = true → inp.address = some a →
      inp.chainId = monadTestnetId → inp.dryRun = false →
      bigIntOfString? (jsOr p.tx.value "0") = some v →
      ¬ (p.tx.args.tokenURI = "" ∨ p.tx.args.salt = "") →
      bigIntOfString? (jsOr p.tx.args.amountOut "0") = some ao →
      env.writeContract (writeReqOf p a v ao) = Except.ok h →
      env.waitForReceipt h = Except.ok rc →
      (signAndLaunch env inp).sent = some (writeReqOf p a v ao) ∧
      (signAndLaunch env inp).packedLaunch = none) := by
  refine ⟨?_, ?_, ?_⟩
  · intro hm hpl
    unfold signAndLaunch
    rw [hm, hpl]
    simp
  · intro p hm hpl hcli hc ha hch hdr
    unfold signAndLaunch
    rw [hm, hpl]
    simp [hcli, hc, ha, hch, hdr]
  · intro p a v ao h rc hm hpl hcli hc ha hch hdr hv hfld hao hw hr
    rw [launch_confirmed_eq env inp p a h v ao rc hm hpl hcli hc ha hch hdr hv hfld hao hw hr]
    cases hp : parseCurveCreateFromReceipt rc <;> simp

def c4NoPackInput : LaunchInput := { launchInput0 with packedLaunch := none }

def c4DryRunInput : LaunchInput := { launchInput0 with dryRun := true }

theorem c4_no_double_send_witness :
    ((signAndLaunch launchEnv0 c4NoPackInput).sent = none ∧
      "No packed tx found. Pack the tx first." ∈ (signAndLaunch launchEnv0 c4NoPackInput).logs) ∧
    ((signAndLaunch launchEnv0 c4DryRunInput).sent = none ∧
      (signAndLaunch launchEnv0 c4DryRunInput).txHash = none ∧
      (signAndLaunch launchEnv0 c4DryRunInput).packedLaunch = some samplePacked ∧
      "DRY RUN enabled. Skipping signature + send." ∈ (signAndLaunch launchEnv0 c4DryRunInput).logs) ∧
    ((signAndLaunch launchEnv0 launchInput0).sent =
        some (writeReqOf samplePacked "0xabc" 100000000000000010 200000000000000000) ∧
      (signAndLaunch launchEnv0 launchInput0).packedLaunch = none) :=
  ⟨(c4_no_double_send launchEnv0 c4NoPackInput).1 rfl rfl,
   (c4_no_double_send launchEnv0 c4DryRunInput).2.1 samplePacked
     rfl rfl rfl rfl (by decide) rfl rfl,
   (c4_no_double_send launchEnv0 launchInput0).2.2 samplePacked "0xabc"
     100000000000000010 200000000000000000 "0xhash" noCreateReceipt
     rfl rfl rfl rfl rfl rfl rfl (by decide) (by decide) (by decide) rfl rfl⟩

lemma jsOr_empty_default (x : String) : jsOr x "" = x := by
  unfold jsOr; split <;> simp_all

/-- C5 counterexample: a builder state whose `supply` field is the empty
string does not survive the persist/restore round trip — the `||` fallback
replaces it with the default. -/
def c5BadState : BuilderState :=
  { defaultBuilderState with
    tokenForm := { (restoreBuilder none).tokenForm with supply := "" } }

theorem c5_roundtrip_counterexample :
    restoreBuilder (some (persistBuilder c5BadState)) ≠ c5BadState ∧
    (restoreBuilder (some (persistBuilder c5BadState))).tokenForm.supply = "1000000000" ∧
    c5BadState.tokenForm.supply = "" := by decide

/-- C5 amended: the persist/restore round trip restores a field-for-field
identical builder state for every state whose `||`-restored form fields
(`supply`, `twitter`, `telegram`, `website`, `initialBuyMon`) are present
and non-empty (empty values are replaced by the seeded defaults on
restore); a stage-3 re-entry with a cached logo set fires no logo
regeneration, and the stage-2 prompt generation does not fire at stage 3. -/
theorem c5_roundtrip_amended (s : BuilderState) (v : String)
    (h1 : s.tokenForm.supply ≠ "") (h2 : s.tokenForm.twitter ≠ "")
    (h3 : s.tokenForm.telegram ≠ "") (h4 : s.tokenForm.website ≠ "")
    (h5 : s.tokenForm.initialBuyMon = some v) (h6 : v ≠ "") :
    restoreBuilder (some (persistBuilder s)) = s ∧
    (∀ t tg dsc addr, s.buildStep = 3 → s.logos ≠ [] →
      (stage3Seed t tg dsc addr s).2 = false) ∧
    (s.buildStep = 3 → stage2PromptFires s = false) := by
  refine ⟨?_, ?_, ?_⟩
  · obtain ⟨bs, cc, fp, ca, lg, sl, tf, pl⟩ := s
    obtain ⟨n, sy, su, d, tw, te, we, ib, cl, uc, dr, t1, t2, t3, t4, t5, ba⟩ := tf
    simp only at h1 h2 h3 h4 h5 h6
    subst h5
    simp [restoreBuilder, persistBuilder, restoreTokenForm, persistTokenForm, jsOrO, jsOr,
      jsOr_empty_default, h1, h2, h3, h4, h6]
    exact ⟨fun h => h.symm, fun h => h.symm, fun h => h.symm, fun h => h.symm, fun h => h.symm⟩
  · intro t tg dsc addr hstep hlogos
    simp [stage3Seed, hstep, hlogos]
  · intro hstep
    simp [stage2PromptFires, hstep]

def c5GoodState : BuilderState :=
  { defaultBuilderState with buildStep := 3, logos := ["data:image/png;base64,AAAA"] }

theorem c5_roundtrip_amended_witness :
    restoreBuilder (some (persistBuilder c5GoodState)) = c5GoodState ∧
    (stage3Seed "Title" "tagline" "description" none c5GoodState).2 = false ∧
    stage2PromptFires c5GoodState = false := by
  have h := c5_roundtrip_amended c5GoodState "0.1"
    (by decide) (by decide) (by decide) (by decide) (by decide) (by decide)
  exact ⟨h.1, h.2.1 "Title" "tagline" "description" none rfl (by decide), h.2.2 rfl⟩

/-- C6 counterexample state: a modal state holding a packed launch. -/
def c6ModalState : ModalState :=
  { builder := { defaultBuilderState with packedLaunch := some samplePacked }
    buildLogs := ["[12:00:00] line"], isContractDeploying := false, isMinting := false
    txHash := some "0xh" }

def c6Storage : Storage :=
  { builderKey := some (persistBuilder defaultBuilderState), logsKey := some ["[12:00:00] line"] }

/-- C6 counterexample: `handleResetCache` does not return every in-memory
field to its default — `packedLaunch` is left untouched and the social-link
fields become empty strings instead of their seeded defaults. -/
theorem c6_reset_counterexample :
    (handleResetCache none c6ModalState c6Storage).1.builder ≠ defaultBuilderState ∧
    (handleResetCache none c6ModalState c6Storage).1.builder.packedLaunch = some samplePacked ∧
    defaultBuilderState.packedLaunch = none ∧
    (handleResetCache none c6ModalState c6Storage).1.builder.tokenForm.twitter = "" ∧
    defaultBuilderState.tokenForm.twitter = "https://x.com/" := by decide

/-- C6 amended: `handleResetCache` removes both persisted keys, returns the
machine to step 0 and clears the generated artifacts, logs and tx hash, but
it leaves `packedLaunch` unchanged and installs `resetTokenForm` (empty
social links, absent `initialBuyMon`) rather than the initial defaults. -/
theorem c6_reset_amended (address : Option String) (st : ModalState) (store : Storage) :
    (handleResetCache address st store).2.builderKey = none ∧
    (handleResetCache address st store).2.logsKey = none ∧
    (handleResetCache address st store).1.builder.buildStep = 0 ∧
    (handleResetCache address st store).1.builder.contractCode = "" ∧
    (handleResetCache address st store).1.builder.frontendPrompt = "" ∧
    (handleResetCache address st store).1.builder.contractAddress = none ∧
    (handleResetCache address st store).1.builder.logos = [] ∧
    (handleResetCache address st store).1.builder.selectedLogo = 0 ∧
    (handleResetCache address st store).1.builder.tokenForm = resetTokenForm address ∧
    (handleResetCache address st store).1.builder.packedLaunch = st.builder.packedLaunch ∧
    (handleResetCache address st store).1.buildLogs = [] ∧
    (handleResetCache address st store).1.isMinting = false ∧
    (handleResetCache address st store).1.txHash = none :=
  ⟨rfl, rfl, rfl, rfl, rfl, rfl, rfl, rfl, rfl, rfl, rfl, rfl, rfl⟩

/-- C7: relay routing. A non-OPTIONS request whose path does not start with
`/relay` gets 404 without contacting the upstream (the claim's own OPTIONS
clause carves preflights out of that case); a non-OPTIONS request on
`/relay...` is forwarded to the upstream base plus the path after the
`/relay` prefix, preserving the method, the body (omitted for GET/HEAD) and
the headers minus `host`/`origin`/`referer`; every OPTIONS request (on any
non-empty request target) is answered 200 with an empty body and never
reaches the upstream. -/
theorem c7_relay_routing (target : String) (allowed : List String)
    (upstream : ForwardReq → Except String UpstreamResp) (req : RelayReq) :
    (req.method ≠ "OPTIONS" → strStarts req.url "/relay" = false →
      (relayHandler target allowed upstream req).2 = none ∧
      (relayHandler target allowed upstream req).1.status = 404 ∧
      (relayHandler target allowed upstream req).1.body = "Not found") ∧
    (req.method ≠ "OPTIONS" → req.url ≠ "" → strStarts req.url "/relay" = true →
      (relayHandler target allowed upstream req).2 =
        some { url := target ++ strDrop req.url 6, method := req.method
               headers := stripHopHeaders req.headers
               body := if req.method = "GET" ∨ req.method = "HEAD" then none
                       else some req.body }) ∧
    (req.method = "OPTIONS" → req.url ≠ "" →
      (relayHandler target allowed upstream req).2 = none ∧
      (relayHandler target allowed upstream req).1.status = 200 ∧
      (relayHandler target allowed upstream req).1.body = "") := by
  refine ⟨?_, ?_, ?_⟩
  · intro hm hs
    by_cases hu : req.url = "" <;>
      simp [relayHandler, hu, hm, hs, send]
  · intro hm hu hs
    unfold relayHandler
    simp only [hu, hm, hs, if_false, if_true]
    cases hup : upstream
      { url := target ++ strDrop req.url 6, method := req.method
        headers := stripHopHeaders req.headers
        body := if req.method = "GET" ∨ req.method = "HEAD" then none else some req.body } with
    | error e => simp [hup]
    | ok u => simp [hup]
  · intro hm hu
    simp [relayHandler, hu, hm, send]

def c7Upstream : ForwardReq → Except String UpstreamResp :=
  fun _ => Except.ok { status := 200, headers := [("content-type", "text/plain")], body := "hi" }

theorem c7_relay_routing_witness :
    (relayHandler "https://nad.fun" [] c7Upstream
        { url := "/unknown", method := "GET", headers := [], body := "" }).2 = none ∧
    (relayHandler "https://nad.fun" [] c7Upstream
        { url := "/unknown", method := "GET", headers := [], body := "" }).1.status = 404 ∧
    (relayHandler "https://nad.fun" [] c7Upstream
        { url := "/relay/foo", method := "POST",
          headers := [("host", "h"), ("x-extra", "1")], body := "B" }).2 =
      some { url := "https://nad.fun/foo", method := "POST"
             headers := [("x-extra", "1")], body := some "B" } ∧
    (relayHandler "https://nad.fun" [] c7Upstream
        { url := "/anything", method := "OPTIONS", headers := [], body := "" }).2 = none ∧
    (relayHandler "https://nad.fun" [] c7Upstream
        { url := "/anything", method := "OPTIONS", headers := [], body := "" }).1.status = 200 := by
  have h1 := (c7_relay_routing "https://nad.fun" [] c7Upstream
    { url := "/unknown", method := "GET", headers := [], body := "" }).1
    (by decide) (by decide)
  have h2 := (c7_relay_routing "https://nad.fun" [] c7Upstream
    { url := "/relay/foo", method := "POST",
      headers := [("host", "h"), ("x-extra", "1")], body := "B" }).2.1
    (by decide) (by decide) (by decide)
  have h3 := (c7_relay_routing "https://nad.fun" [] c7Upstream
    { url := "/anything", method := "OPTIONS", headers := [], body := "" }).2.2
    rfl (by decide)
  exact ⟨h1.1, h1.2.1, by rw [h2]; decide, h3.1, h3.2.1⟩

/-- C8 counterexample: with a configured (non-empty) allow-list, a request
carrying no `Origin` header is still answered with
`Access-Control-Allow-Origin: *`, which is not an echo of a matching request
origin — the claim's "only by echoing" policy does not hold on the code. -/
theorem c8_cors_counterexample :
    parseAllowedOrigins "https://app.example" = ["https://app.example"] ∧
    lookupHeader ([] : List (String × String)) "origin" = none ∧
    acaoOf (relayHandler "https://nad.fun" (parseAllowedOrigins "https://app.example")
        (fun _ => Except.error "down")
        { url := "/x", method := "GET", headers := [], body := "" }).1 = some "*" := by
  decide

/-- C8 amended: with no allow-list every origin gets `*`; with a non-empty
allow-list a non-empty request origin is echoed exactly when it matches the
list exactly or by host, and gets no header otherwise; but a request with no
`Origin` header always gets `*`, allow-list or not. The response header is
exactly the non-empty `getCorsOrigin` value. -/
theorem c8_cors_amended (allowed : List String) (origin : String)
    (reqHeaders : List (String × String)) (status : Nat) (body : String) :
    (allowed = [] → getCorsOrigin allowed origin = "*") ∧
    (origin = "" → getCorsOrigin allowed origin = "*") ∧
    (allowed ≠ [] → origin ≠ "" →
      ((allowed.contains origin ∨ allowed.contains (stripTrailingSlash (stripScheme origin))) →
        getCorsOrigin allowed origin = origin) ∧
      (¬ (allowed.contains origin ∨ allowed.contains (stripTrailingSlash (stripScheme origin))) →
        getCorsOrigin allowed origin = "")) ∧
    (acaoOf (send allowed reqHeaders status body []) =
      (if getCorsOrigin allowed ((lookupHeader reqHeaders "origin").getD "") = "" then none
       else some (getCorsOrigin allowed ((lookupHeader reqHeaders "origin").getD "")))) := by
  refine ⟨?_, ?_, ?_, ?_⟩
  · intro h
    subst h
    unfold getCorsOrigin
    split <;> simp
  · intro h
    simp [getCorsOrigin, h]
  · intro ha ho
    constructor
    · intro hm
      simp only [getCorsOrigin]
      rw [if_neg ho, if_neg ha, if_pos hm]
    · intro hm
      simp only [getCorsOrigin]
      rw [if_neg ho, if_neg ha, if_neg hm]
  · unfold send acaoOf mergeHeaders lookupHeader
    split <;> simp_all [List.find?]

theorem c8_cors_amended_witness :
    getCorsOrigin [] "https://a.example" = "*" ∧
    getCorsOrigin ["https://a.example"] "" = "*" ∧
    getCorsOrigin ["https://a.example"] "https://a.example" = "https://a.example" ∧
    getCorsOrigin ["a.example"] "https://a.example/" = "https://a.example/" ∧
    getCorsOrigin ["https://a.example"] "https://evil.example" = "" ∧
    acaoOf (send ["https://a.example"] [("origin", "https://a.example")] 200 "" []) =
      some "https://a.example" := by
  refine ⟨(c8_cors_amended [] "https://a.example" [] 200 "").1 rfl,
    (c8_cors_amended ["https://a.example"] "" [] 200 "").2.1 rfl,
    ((c8_cors_amended ["https://a.example"] "https://a.example" [] 200 "").2.2.1
      (by decide) (by decide)).1 (by decide),
    ((c8_cors_amended ["a.example"] "https://a.example/" [] 200 "").2.2.1
      (by decide) (by decide)).1 (by decide),
    ((c8_cors_amended ["https://a.example"] "https://evil.example" [] 200 "").2.2.1
      (by decide) (by decide)).2 (by decide),
    ?_⟩
  have h := (c8_cors_amended ["https://a.example"]
    "https://a.example" [("origin", "https://a.example")] 200 "").2.2.2
  rw [h]
  decide

/-- C9 counterexample: on a non-success response whose body is not
parseable JSON, the thrown message carries the catch fallback
`Unknown error` — the response's status text is not included, contrary to
the claim's "otherwise includes the response's status text". -/
theorem c9_upload_error_counterexample :
    uploadImage { ok := false, statusText := "Bad Gateway", json := none } =
      Except.error "Nad.fun image upload failed: Unknown error" ∧
    ¬ "Bad Gateway".data <:+: ("Nad.fun image upload failed: Unknown error").data := by
  exact ⟨rfl, by decide⟩

/-- C9 amended: on a non-success response, `uploadImage` / `uploadMetadata`
throw with the parsed body's non-empty `error` field when the body parses
and carries one, with the status text when the body parses without a usable
`error` field, and with the fixed `Unknown error` fallback when the body
does not parse; on success `uploadImage` returns `{imageUri, isNsfw}` from
the body. -/
theorem c9_upload_error_amended (ri : HttpResp ImageJson) (rm : HttpResp MetaJson) :
    (∀ j e, ri.ok = false → ri.json = some j → j.error = some e → e ≠ "" →
      uploadImage ri = Except.error ("Nad.fun image upload failed: " ++ e)) ∧
    (∀ j, ri.ok = false → ri.json = some j → (j.error = none ∨ j.error = some "") →
      uploadImage ri = Except.error ("Nad.fun image upload failed: " ++ ri.statusText)) ∧
    (ri.ok = false → ri.json = none →
      uploadImage ri = Except.error ("Nad.fun image upload failed: " ++ "Unknown error")) ∧
    (∀ j, ri.ok = true → ri.json = some j →
      uploadImage ri = Except.ok { imageUri := j.image_uri, isNsfw := j.is_nsfw }) ∧
    (∀ j e, rm.ok = false → rm.json = some j → j.error = some e → e ≠ "" →
      uploadMetadata rm = Except.error ("Nad.fun metadata upload failed: " ++ e)) ∧
    (∀ j, rm.ok = false → rm.json = some j → (j.error = none ∨ j.error = some "") →
      uploadMetadata rm = Except.error ("Nad.fun metadata upload failed: " ++ rm.statusText)) ∧
    (rm.ok = false → rm.json = none →
      uploadMetadata rm = Except.error ("Nad.fun metadata upload failed: " ++ "Unknown error")) := by
  refine ⟨?_, ?_, ?_, ?_, ?_, ?_, ?_⟩
  · intro j e hok hj he hne
    simp [uploadImage, hok, hj, he, errorFieldOfImage, jsOrStatus, jsOr, hne]
  · intro j hok hj he
    rcases he with he | he <;>
      simp [uploadImage, hok, hj, he, errorFieldOfImage, jsOrStatus, jsOr]
  · intro hok hj
    simp [uploadImage, hok, hj, errorFieldOfImage, jsOrStatus, jsOr]
  · intro j hok hj
    simp [uploadImage, hok, hj]
  · intro j e hok hj he hne
    simp [uploadMetadata, hok, hj, he, errorFieldOfMeta, jsOrStatus, jsOr, hne]
  · intro j hok hj he
    rcases he with he | he <;>
      simp [uploadMetadata, hok, hj, he, errorFieldOfMeta, jsOrStatus, jsOr]
  · intro hok hj
    simp [uploadMetadata, hok, hj, errorFieldOfMeta, jsOrStatus, jsOr]

def c9ErrImageResp : HttpResp ImageJson :=
  { ok := false, statusText := "ST"
    json := some { error := some "boom", image_uri := "", is_nsfw := false } }

def c9NoErrImageResp : HttpResp ImageJson :=
  { ok := false, statusText := "ST"
    json := some { error := none, image_uri := "", is_nsfw := false } }

def c9OkImageResp : HttpResp ImageJson :=
  { ok := true, statusText := "OK"
    json := some { error := none, image_uri := "ipfs://img", is_nsfw := true } }

def c9MetaNoJsonResp : HttpResp MetaJson :=
  { ok := false, statusText := "ST", json := none }

theorem c9_upload_error_amended_witness :
    uploadImage c9ErrImageResp = Except.error "Nad.fun image upload failed: boom" ∧
    uploadImage c9NoErrImageResp = Except.error "Nad.fun image upload failed: ST" ∧
    uploadImage c9OkImageResp = Except.ok { imageUri := "ipfs://img", isNsfw := true } ∧
    uploadMetadata c9MetaNoJsonResp =
      Except.error "Nad.fun metadata upload failed: Unknown error" :=
  ⟨(c9_upload_error_amended c9ErrImageResp c9MetaNoJsonResp).1
      { error := some "boom", image_uri := "", is_nsfw := false } "boom" rfl rfl rfl (by decide),
   (c9_upload_error_amended c9NoErrImageResp c9MetaNoJsonResp).2.1
      { error := none, image_uri := "", is_nsfw := false } rfl rfl (Or.inl rfl),
   (c9_upload_error_amended c9OkImageResp c9MetaNoJsonResp).2.2.2.1
      { error := none, image_uri := "ipfs://img", is_nsfw := true } rfl rfl,
   (c9_upload_error_amended c9ErrImageResp c9MetaNoJsonResp).2.2.2.2.2.2 rfl rfl⟩

def c10BadChainInput : PackInput := { sampleInput with chainId := 1 }

theorem c10_pack_targets_mainnet_witness :
    samplePacked.network = NadfunNetwork.mainnet ∧
    samplePacked.tx.toAddr = (NADFUN_CONTRACTS NadfunNetwork.mainnet).BONDING_CURVE_ROUTER ∧
    netCallNetwork (NetCall.getFeeConfig NADFUN_NETWORK) = NadfunNetwork.mainnet ∧
    (packLaunchTx sampleEnv c10BadChainInput).calls = [] := by
  obtain ⟨-, h2, h3, h4⟩ := c10_pack_targets_mainnet
  have hp := h2 (Except.ok ()) sampleEnv sampleInput samplePacked rfl
  refine ⟨hp.1, hp.2.2, ?_, (h4 sampleEnv c10BadChainInput (by decide)).1⟩
  exact h3 (Except.ok ()) sampleEnv sampleInput (NetCall.getFeeConfig NADFUN_NETWORK) (by decide)

end NadLabs
